import Mathlib

/-!
Verification of the transcription-platform backend.

Shallow embedding of the rate limiter (`app/services/rate_limiter.py`), the
transcription orchestration (`app/services/transcription_service.py`) and the
real-time streaming endpoint (`app/routes/realtime.py`).  Time is modelled in
whole seconds as naturals; provider calls and subprocess stages are modelled
as explicit `Except`-valued oracles; `asyncio.sleep` advances the model clock
by the computed wait.
-/

deriving instance DecidableEq for Except

namespace TranscriptionPlatform

/-! ## Rate limiter (`rate_limiter.py`) -/

/-- Sliding-window length of the per-minute quota, in seconds. -/
def MINUTE_WINDOW : Nat := 60

/-- Sliding-window length of the per-day quota, in seconds. -/
def DAY_WINDOW : Nat := 86400

/-- `RateLimitConfig` from `rate_limiter.py` (lines 16-23).  `retry_delay` is
the float `2.0` in the source; the model keeps whole seconds. -/
structure RateLimitConfig where
  requests_per_minute : Nat
  requests_per_day : Nat
  retry_attempts : Nat
  retry_delay : Nat
  enabled : Bool
deriving DecidableEq, Repr

/-- The configuration built by `get_groq_rate_limiter` (lines 216-222):
25 RPM, 10000 RPD, 3 retry attempts, 2s base delay, enabled. -/
def referenceConfig : RateLimitConfig :=
  ⟨25, 10000, 3, 2, true⟩

/-- `RateLimitState` (lines 26-31): the two deques of request timestamps. -/
structure RateLimitState where
  minute_requests : List Nat
  day_requests : List Nat
deriving DecidableEq, Repr

/-- The freshly initialised state (`RateLimitState()`): both deques empty. -/
def initialState : RateLimitState := ⟨[], []⟩

/-- One window of `_cleanup_old_requests` (lines 101-112): pop entries from
the front while they are older than `now` minus the window length.
`t < now - w` over real timestamps is `t + w < now` over naturals. -/
def cleanupWindow (w now : Nat) (l : List Nat) : List Nat :=
  l.dropWhile (fun t => t + w < now)

/-- `_cleanup_old_requests` (lines 101-112): clean both windows. -/
def cleanupOldRequests (now : Nat) (s : RateLimitState) : RateLimitState :=
  ⟨cleanupWindow MINUTE_WINDOW now s.minute_requests,
   cleanupWindow DAY_WINDOW now s.day_requests⟩

/-- One window's contribution to `_calculate_wait_time` (lines 114-132):
when the window is at or over its ceiling, wait until its oldest entry
expires (`w - (now - oldest) + 1`), kept only when positive. -/
def windowWait (w limit now : Nat) (l : List Nat) : List Int :=
  if limit ≤ l.length then
    match l with
    | [] => []
    | oldest :: _ =>
      let wait : Int := (w : Int) - ((now : Int) - (oldest : Int)) + 1
      if 0 < wait then [wait] else []
  else []

/-- `_calculate_wait_time` (lines 114-132): the max of the per-window waits,
defaulting to 1 second. -/
def calculateWaitTime (cfg : RateLimitConfig) (now : Nat) (s : RateLimitState) : Int :=
  let waits := windowWait MINUTE_WINDOW cfg.requests_per_minute now s.minute_requests ++
               windowWait DAY_WINDOW cfg.requests_per_day now s.day_requests
  match waits.max? with
  | some m => m
  | none => 1

/-- Lines 77-79 of `acquire`: append the admitted request's timestamp to
both deques. -/
def recordRequest (now : Nat) (s : RateLimitState) : RateLimitState :=
  ⟨s.minute_requests ++ [now], s.day_requests ++ [now]⟩

/-- The `while True` loop of `acquire` (lines 70-99).  `fuel` bounds the
number of wait-and-recheck iterations; `asyncio.sleep(wait_time)` is modelled
as advancing the clock by exactly the computed wait, after which the loop
cleans the windows again and re-checks.  Admission appends the current time
to both deques and returns it. -/
def acquireGo (cfg : RateLimitConfig) : Nat → Nat → RateLimitState → Option (Nat × RateLimitState)
  | 0, now, s =>
    if s.minute_requests.length < cfg.requests_per_minute ∧
        s.day_requests.length < cfg.requests_per_day then
      some (now, recordRequest now s)
    else none
  | fuel + 1, now, s =>
    if s.minute_requests.length < cfg.requests_per_minute ∧
        s.day_requests.length < cfg.requests_per_day then
      some (now, recordRequest now s)
    else
      let now' := now + (calculateWaitTime cfg now s).toNat
      acquireGo cfg fuel now' (cleanupOldRequests now' s)

/-- `acquire` (lines 52-99): a disabled limiter admits immediately without
recording; otherwise clean the windows once and enter the check loop. -/
def acquire (cfg : RateLimitConfig) (fuel now : Nat) (s : RateLimitState) :
    Option (Nat × RateLimitState) :=
  if cfg.enabled = false then some (now, s)
  else acquireGo cfg fuel now (cleanupOldRequests now s)

/-- A sequence of `acquire` calls.  Each list entry is `(fuel, delay)`: the
call happens `delay` seconds after the previous call finished.  The last two
components accumulate the history of every admitted (recorded) timestamp for
the minute and day dimensions. -/
def runAcquiresH (cfg : RateLimitConfig) :
    List (Nat × Nat) → Nat → RateLimitState → List Nat → List Nat →
    Nat × RateLimitState × List Nat × List Nat
  | [], clock, s, hm, hd => (clock, s, hm, hd)
  | (fuel, delay) :: rest, clock, s, hm, hd =>
    match acquire cfg fuel (clock + delay) s with
    | some (t', s') => runAcquiresH cfg rest t' s' (hm ++ [t']) (hd ++ [t'])
    | none => runAcquiresH cfg rest (clock + delay) s hm hd

/-- Number of recorded timestamps lying within the trailing window of length
`w` at observation time `now`. -/
def windowCount (w now : Nat) (l : List Nat) : Nat :=
  (l.filter (fun t => now ≤ t + w)).length

/-! ## Retry wrapper (`execute_with_retry`, lines 134-183) -/

/-- Substring search over character lists (Python's `in` on strings). -/
def containsSub (hay sub : List Char) : Bool :=
  match hay with
  | [] => sub.isEmpty
  | _ :: rest => sub.isPrefixOf hay || containsSub rest sub

/-- Python's `str.lower()` restricted to its ASCII behaviour. -/
def lowerStr (s : String) : String :=
  String.mk (s.data.map Char.toLower)

/-- The throttling classifier of `execute_with_retry` (line 168): the
lowercased error text contains one of the known throttling signatures. -/
def isRateLimitError (msg : String) : Bool :=
  containsSub (lowerStr msg).data "rate limit".data ||
  containsSub (lowerStr msg).data "too many requests".data ||
  containsSub (lowerStr msg).data "429".data

/-- Observable trace of one `execute_with_retry` run.  `outcome`'s error
carries `none` exactly when Python would `raise last_error` with
`last_error = None` (possible only with a zero retry cap). -/
structure RetryTrace (α : Type) where
  outcome : Except (Option String) α
  invocations : Nat
  sleeps : List Nat

/-- The `for attempt in range(retry_attempts)` loop of `execute_with_retry`
(lines 150-183).  `op` gives the operation's result on each attempt; on a
throttling error the loop sleeps `retry_delay * (attempt + 1)` and retries;
any other error propagates at once; exhausting the attempts propagates the
last error. -/
def executeWithRetryGo (cfg : RateLimitConfig) (op : Nat → Except String α) :
    Nat → Nat → Nat → List Nat → Option String → RetryTrace α
  | 0, _, inv, sleeps, lastErr => ⟨.error lastErr, inv, sleeps⟩
  | remaining + 1, attempt, inv, sleeps, _ =>
    match op attempt with
    | .ok v => ⟨.ok v, inv + 1, sleeps⟩
    | .error e =>
      if isRateLimitError e then
        executeWithRetryGo cfg op remaining (attempt + 1) (inv + 1)
          (sleeps ++ [cfg.retry_delay * (attempt + 1)]) (some e)
      else
        ⟨.error (some e), inv + 1, sleeps⟩

/-- `execute_with_retry` (lines 134-183).  The per-call `acquire` admission
is modelled separately by `acquire`; it never changes the retry control
flow. -/
def executeWithRetry (cfg : RateLimitConfig) (op : Nat → Except String α) : RetryTrace α :=
  executeWithRetryGo cfg op cfg.retry_attempts 0 0 [] none

/-! ## Lemmas about `execute_with_retry` -/

lemma executeWithRetryGo_throttle (cfg : RateLimitConfig) (op : Nat → Except String α)
    (errs : Nat → String) (hop : ∀ k, op k = .error (errs k))
    (hthr : ∀ k, isRateLimitError (errs k) = true) :
    ∀ remaining attempt inv sleeps lastErr, 1 ≤ remaining →
      executeWithRetryGo cfg op remaining attempt inv sleeps lastErr =
        ⟨.error (some (errs (attempt + remaining - 1))), inv + remaining,
         sleeps ++ (List.range remaining).map (fun k => cfg.retry_delay * (attempt + k + 1))⟩ := by
  intro remaining
  induction remaining with
  | zero => intro attempt inv sleeps lastErr h; omega
  | succ r ih =>
    intro attempt inv sleeps lastErr _
    rw [executeWithRetryGo, hop attempt]
    simp only [hthr attempt, if_pos]
    rcases Nat.eq_zero_or_pos r with hr | hr
    · subst hr
      rw [executeWithRetryGo]
      rw [show List.range 1 = [0] from rfl]
      simp
    · rw [ih (attempt + 1) (inv + 1) (sleeps ++ [cfg.retry_delay * (attempt + 1)])
        (some (errs attempt)) hr]
      have hidx : attempt + 1 + r - 1 = attempt + (r + 1) - 1 := by omega
      have hinv : inv + 1 + r = inv + (r + 1) := by omega
      have hfun : (fun k => cfg.retry_delay * (attempt + 1 + k + 1)) =
          ((fun k => cfg.retry_delay * (attempt + k + 1)) ∘ Nat.succ) := by
        funext k
        simp only [Function.comp_apply, Nat.succ_eq_add_one]
        congr 1
        omega
      have hsl : sleeps ++ [cfg.retry_delay * (attempt + 1)] ++
          (List.range r).map (fun k => cfg.retry_delay * (attempt + 1 + k + 1)) =
          sleeps ++ (List.range (r + 1)).map (fun k => cfg.retry_delay * (attempt + k + 1)) := by
        rw [hfun, List.range_succ_eq_map, List.map_cons, List.map_map, List.append_assoc,
          List.singleton_append]
      rw [hidx, hinv, hsl]

/-- Claim C2: an operation that raises a throttling error on every invocation
is invoked exactly `retry_attempts` times, with a sleep of
`retry_delay * attempt-number` recorded between consecutive attempts, and the
last error is finally propagated; an operation whose first invocation raises
a non-throttling error propagates it after exactly one invocation with no
retry sleeps. -/
theorem executeWithRetry_throttle_c2 (cfg : RateLimitConfig) (op : Nat → Except String α)
    (errs : Nat → String) (hcap : 1 ≤ cfg.retry_attempts) :
    ((∀ k, op k = .error (errs k)) → (∀ k, isRateLimitError (errs k) = true) →
      (executeWithRetry cfg op).invocations = cfg.retry_attempts ∧
      (executeWithRetry cfg op).outcome = .error (some (errs (cfg.retry_attempts - 1))) ∧
      (executeWithRetry cfg op).sleeps =
        (List.range cfg.retry_attempts).map (fun k => cfg.retry_delay * (k + 1))) ∧
    (∀ m, op 0 = .error m → isRateLimitError m = false →
      (executeWithRetry cfg op).invocations = 1 ∧
      (executeWithRetry cfg op).outcome = .error (some m) ∧
      (executeWithRetry cfg op).sleeps = []) := by
  constructor
  · intro hop hthr
    rw [executeWithRetry,
      executeWithRetryGo_throttle cfg op errs hop hthr cfg.retry_attempts 0 0 [] none hcap]
    refine ⟨by simp, by simp, by simp⟩
  · intro m hm hnot
    obtain ⟨c, hc⟩ := Nat.exists_eq_add_of_le hcap
    rw [executeWithRetry, hc]
    rw [show 1 + c = c + 1 by omega, executeWithRetryGo, hm]
    simp [hnot]

/-- Witness for C2 at the reference configuration (cap 3, base delay 2s) and
an operation that always reports a 429-style throttling failure. -/
theorem executeWithRetry_throttle_c2_witness :
    (executeWithRetry referenceConfig
        (fun _ => (.error "Rate limit exceeded" : Except String Nat))).invocations = 3 ∧
    (executeWithRetry referenceConfig
        (fun _ => (.error "Rate limit exceeded" : Except String Nat))).outcome =
      .error (some "Rate limit exceeded") ∧
    (executeWithRetry referenceConfig
        (fun _ => (.error "Rate limit exceeded" : Except String Nat))).sleeps = [2, 4, 6] := by
  have h := (executeWithRetry_throttle_c2 referenceConfig
      (fun _ => (.error "Rate limit exceeded" : Except String Nat))
      (fun _ => "Rate limit exceeded") (by decide)).1 (fun _ => rfl) (fun _ => by decide)
  exact ⟨h.1, h.2.1, h.2.2.trans (by decide)⟩

/-! ## Lemmas about `acquire` -/

lemma cleanupWindow_decomp (w now : Nat) (l : List Nat) :
    ∃ p, l = p ++ cleanupWindow w now l ∧ ∀ x ∈ p, x + w < now := by
  refine ⟨l.takeWhile (fun t => t + w < now), ?_, ?_⟩
  · exact (List.takeWhile_append_dropWhile _ _).symm
  · intro x hx
    have h2 := List.mem_takeWhile_imp hx
    exact of_decide_eq_true h2

/-- Specification of a successful pass through the `acquire` check loop: the
admission happens at a time `t'` no earlier than the call; each window of the
pre-call state splits into a stale prefix (aged out by `t'`) and a surviving
suffix whose count passed the just-re-checked ceiling test, and the new state
is that suffix with `t'` appended. -/
lemma acquireGo_some (cfg : RateLimitConfig) :
    ∀ (fuel now : Nat) (s : RateLimitState) (t' : Nat) (s' : RateLimitState),
      acquireGo cfg fuel now s = some (t', s') →
      now ≤ t' ∧
      (∃ pm sm, s.minute_requests = pm ++ sm ∧ (∀ x ∈ pm, x + MINUTE_WINDOW < t') ∧
        sm.length < cfg.requests_per_minute ∧ s'.minute_requests = sm ++ [t']) ∧
      (∃ pd sd, s.day_requests = pd ++ sd ∧ (∀ x ∈ pd, x + DAY_WINDOW < t') ∧
        sd.length < cfg.requests_per_day ∧ s'.day_requests = sd ++ [t']) := by
  intro fuel
  induction fuel with
  | zero =>
    intro now s t' s' h
    rw [acquireGo] at h
    split at h
    case isTrue hc =>
      injection h with h1
      obtain ⟨rfl, rfl⟩ : t' = now ∧ s' = recordRequest now s := by
        constructor
        · exact (congrArg Prod.fst h1).symm
        · exact (congrArg Prod.snd h1).symm
      exact ⟨Nat.le_refl _,
        ⟨[], s.minute_requests, by simp, by simp, hc.1, rfl⟩,
        ⟨[], s.day_requests, by simp, by simp, hc.2, rfl⟩⟩
    case isFalse => exact absurd h (by simp)
  | succ fuel ih =>
    intro now s t' s' h
    rw [acquireGo] at h
    split at h
    case isTrue hc =>
      injection h with h1
      obtain ⟨rfl, rfl⟩ : t' = now ∧ s' = recordRequest now s := by
        constructor
        · exact (congrArg Prod.fst h1).symm
        · exact (congrArg Prod.snd h1).symm
      exact ⟨Nat.le_refl _,
        ⟨[], s.minute_requests, by simp, by simp, hc.1, rfl⟩,
        ⟨[], s.day_requests, by simp, by simp, hc.2, rfl⟩⟩
    case isFalse =>
      obtain ⟨hle, ⟨pm, sm, hdm, hstm, hlm, hsm⟩, ⟨pd, sd, hdd, hstd, hld, hsd⟩⟩ := ih _ _ _ _ h
      have hnow : now ≤ now + (calculateWaitTime cfg now s).toNat := Nat.le_add_right _ _
      obtain ⟨qm, hqm, hqstm⟩ :=
        cleanupWindow_decomp MINUTE_WINDOW (now + (calculateWaitTime cfg now s).toNat)
          s.minute_requests
      obtain ⟨qd, hqd, hqstd⟩ :=
        cleanupWindow_decomp DAY_WINDOW (now + (calculateWaitTime cfg now s).toNat)
          s.day_requests
      refine ⟨Nat.le_trans hnow hle, ⟨qm ++ pm, sm, ?_, ?_, hlm, hsm⟩,
        ⟨qd ++ pd, sd, ?_, ?_, hld, hsd⟩⟩
      · rw [List.append_assoc, ← hdm]
        exact hqm
      · intro x hx
        rcases List.mem_append.mp hx with hx | hx
        · exact Nat.lt_of_lt_of_le (hqstm x hx) hle
        · exact hstm x hx
      · rw [List.append_assoc, ← hdd]
        exact hqd
      · intro x hx
        rcases List.mem_append.mp hx with hx | hx
        · exact Nat.lt_of_lt_of_le (hqstd x hx) hle
        · exact hstd x hx

/-- Invariant carried along a sequence of `acquire` calls: each recorded
history is the state's window deque preceded by entries already aged out at
the current clock, and each deque's length is within its ceiling. -/
def RunInv (cfg : RateLimitConfig) (clock : Nat) (s : RateLimitState) (hm hd : List Nat) : Prop :=
  (∃ p, hm = p ++ s.minute_requests ∧ ∀ x ∈ p, x + MINUTE_WINDOW < clock) ∧
  s.minute_requests.length ≤ cfg.requests_per_minute ∧
  (∃ p, hd = p ++ s.day_requests ∧ ∀ x ∈ p, x + DAY_WINDOW < clock) ∧
  s.day_requests.length ≤ cfg.requests_per_day

lemma runInv_initial (cfg : RateLimitConfig) (clock : Nat) :
    RunInv cfg clock initialState [] [] :=
  ⟨⟨[], rfl, by simp⟩, by simp [initialState], ⟨[], rfl, by simp⟩, by simp [initialState]⟩

lemma runInv_mono (cfg : RateLimitConfig) (clock clock' : Nat) (s : RateLimitState)
    (hm hd : List Nat) (hle : clock ≤ clock') (h : RunInv cfg clock s hm hd) :
    RunInv cfg clock' s hm hd := by
  obtain ⟨⟨p, hp, hst⟩, hlm, ⟨q, hq, hstq⟩, hld⟩ := h
  exact ⟨⟨p, hp, fun x hx => Nat.lt_of_lt_of_le (hst x hx) hle⟩, hlm,
    ⟨q, hq, fun x hx => Nat.lt_of_lt_of_le (hstq x hx) hle⟩, hld⟩

lemma acquire_preserves_runInv (cfg : RateLimitConfig) (hen : cfg.enabled = true)
    (fuel clock now : Nat) (s : RateLimitState) (hm hd : List Nat)
    (hinv : RunInv cfg clock s hm hd) (hle : clock ≤ now)
    (t' : Nat) (s' : RateLimitState) (h : acquire cfg fuel now s = some (t', s')) :
    now ≤ t' ∧ RunInv cfg t' s' (hm ++ [t']) (hd ++ [t']) := by
  rw [acquire, hen] at h
  simp only [Bool.true_eq_false, if_false] at h
  obtain ⟨hnt, ⟨pm, sm, hdm, hstm, hlm, hsm⟩, ⟨pd, sd, hdd, hstd, hld, hsd⟩⟩ :=
    acquireGo_some cfg _ _ _ _ _ h
  obtain ⟨⟨p, hp, hst⟩, _, ⟨q, hq, hstq⟩, _⟩ := hinv
  obtain ⟨qm, hqm, hqstm⟩ := cleanupWindow_decomp MINUTE_WINDOW now s.minute_requests
  obtain ⟨qd, hqd, hqstd⟩ := cleanupWindow_decomp DAY_WINDOW now s.day_requests
  have hmm : (cleanupOldRequests now s).minute_requests =
      cleanupWindow MINUTE_WINDOW now s.minute_requests := rfl
  have hdd2 : (cleanupOldRequests now s).day_requests =
      cleanupWindow DAY_WINDOW now s.day_requests := rfl
  rw [hmm] at hdm
  rw [hdd2] at hdd
  refine ⟨hnt, ⟨p ++ qm ++ pm, ?_, ?_⟩, ?_, ⟨q ++ qd ++ pd, ?_, ?_⟩, ?_⟩
  · rw [hp, hqm, hdm, hsm]
    simp [List.append_assoc]
  · intro x hx
    rcases List.mem_append.mp hx with hx | hx
    · rcases List.mem_append.mp hx with hx | hx
      · exact Nat.lt_of_lt_of_le (hst x hx) (Nat.le_trans hle hnt)
      · exact Nat.lt_of_lt_of_le (hqstm x hx) hnt
    · exact hstm x hx
  · rw [hsm, List.length_append, List.length_singleton]
    omega
  · rw [hq, hqd, hdd, hsd]
    simp [List.append_assoc]
  · intro x hx
    rcases List.mem_append.mp hx with hx | hx
    · rcases List.mem_append.mp hx with hx | hx
      · exact Nat.lt_of_lt_of_le (hstq x hx) (Nat.le_trans hle hnt)
      · exact Nat.lt_of_lt_of_le (hqstd x hx) hnt
    · exact hstd x hx
  · rw [hsd, List.length_append, List.length_singleton]
    omega

lemma runAcquiresH_inv (cfg : RateLimitConfig) (hen : cfg.enabled = true) :
    ∀ (calls : List (Nat × Nat)) (clock : Nat) (s : RateLimitState) (hm hd : List Nat),
      RunInv cfg clock s hm hd →
      RunInv cfg (runAcquiresH cfg calls clock s hm hd).1
        (runAcquiresH cfg calls clock s hm hd).2.1
        (runAcquiresH cfg calls clock s hm hd).2.2.1
        (runAcquiresH cfg calls clock s hm hd).2.2.2 := by
  intro calls
  induction calls with
  | nil => intro clock s hm hd hinv; exact hinv
  | cons c rest ih =>
    intro clock s hm hd hinv
    obtain ⟨fuel, delay⟩ := c
    rcases hacq : acquire cfg fuel (clock + delay) s with _ | ⟨t', s'⟩
    · rw [runAcquiresH, hacq]
      exact ih (clock + delay) s hm hd
        (runInv_mono cfg clock (clock + delay) s hm hd (Nat.le_add_right _ _) hinv)
    · rw [runAcquiresH, hacq]
      have step := acquire_preserves_runInv cfg hen fuel clock (clock + delay) s hm hd hinv
        (Nat.le_add_right _ _) t' s' hacq
      exact ih t' s' (hm ++ [t']) (hd ++ [t']) step.2

lemma runInv_windowCount (cfg : RateLimitConfig) (clock : Nat) (s : RateLimitState)
    (hm hd : List Nat) (h : RunInv cfg clock s hm hd) :
    windowCount MINUTE_WINDOW clock hm ≤ cfg.requests_per_minute ∧
    windowCount DAY_WINDOW clock hd ≤ cfg.requests_per_day := by
  obtain ⟨⟨p, hp, hst⟩, hlm, ⟨q, hq, hstq⟩, hld⟩ := h
  constructor
  · rw [windowCount, hp, List.filter_append]
    have hnil : p.filter (fun t => clock ≤ t + MINUTE_WINDOW) = [] := by
      rw [List.filter_eq_nil_iff]
      intro x hx
      have := hst x hx
      simp only [decide_eq_true_eq]
      omega
    rw [hnil, List.nil_append]
    exact Nat.le_trans (List.length_filter_le _ _) hlm
  · rw [windowCount, hq, List.filter_append]
    have hnil : q.filter (fun t => clock ≤ t + DAY_WINDOW) = [] := by
      rw [List.filter_eq_nil_iff]
      intro x hx
      have := hstq x hx
      simp only [decide_eq_true_eq]
      omega
    rw [hnil, List.nil_append]
    exact Nat.le_trans (List.length_filter_le _ _) hld

/-- Claim C1: on an enabled limiter, (1) for every sequence of `acquire`
calls starting from the fresh state, the recorded timestamps within the
trailing 60-second window never exceed the per-minute ceiling and those
within the trailing 86400-second window never exceed the per-day ceiling;
(2) a call arriving while a window is at its ceiling is admitted only at a
time by which at least one timestamp of that window has aged out of it; and
(3) any admission records its timestamp only after re-checking, at the
admission time itself, that both window counts are strictly below their
ceilings. -/
theorem rateLimiter_sliding_window_c1 (cfg : RateLimitConfig) (hen : cfg.enabled = true) :
    (∀ (calls : List (Nat × Nat)) (clock : Nat),
      windowCount MINUTE_WINDOW (runAcquiresH cfg calls clock initialState [] []).1
        (runAcquiresH cfg calls clock initialState [] []).2.2.1 ≤ cfg.requests_per_minute ∧
      windowCount DAY_WINDOW (runAcquiresH cfg calls clock initialState [] []).1
        (runAcquiresH cfg calls clock initialState [] []).2.2.2 ≤ cfg.requests_per_day) ∧
    (∀ (fuel now : Nat) (s : RateLimitState) (t' : Nat) (s' : RateLimitState),
      acquire cfg fuel now s = some (t', s') →
      ((cleanupOldRequests now s).minute_requests.length = cfg.requests_per_minute →
        ∃ x ∈ (cleanupOldRequests now s).minute_requests, x + MINUTE_WINDOW < t') ∧
      ((cleanupOldRequests now s).day_requests.length = cfg.requests_per_day →
        ∃ x ∈ (cleanupOldRequests now s).day_requests, x + DAY_WINDOW < t')) ∧
    (∀ (fuel now : Nat) (s : RateLimitState) (t' : Nat) (s' : RateLimitState),
      acquire cfg fuel now s = some (t', s') →
      ∃ m d, s'.minute_requests = m ++ [t'] ∧ m.length < cfg.requests_per_minute ∧
        s'.day_requests = d ++ [t'] ∧ d.length < cfg.requests_per_day) := by
  refine ⟨?_, ?_, ?_⟩
  · intro calls clock
    exact runInv_windowCount cfg _ _ _ _
      (runAcquiresH_inv cfg hen calls clock initialState [] [] (runInv_initial cfg clock))
  · intro fuel now s t' s' h
    rw [acquire, hen] at h
    simp only [Bool.true_eq_false, if_false] at h
    obtain ⟨_, ⟨pm, sm, hdm, hstm, hlm, _⟩, ⟨pd, sd, hdd, hstd, hld, _⟩⟩ :=
      acquireGo_some cfg _ _ _ _ _ h
    constructor
    · intro hceil
      have hne : pm ≠ [] := by
        intro hnil
        rw [hnil, List.nil_append] at hdm
        rw [← hdm] at hlm
        omega
      obtain ⟨x, hx⟩ := List.exists_mem_of_ne_nil pm hne
      exact ⟨x, by rw [hdm]; exact List.mem_append_left _ hx, hstm x hx⟩
    · intro hceil
      have hne : pd ≠ [] := by
        intro hnil
        rw [hnil, List.nil_append] at hdd
        rw [← hdd] at hld
        omega
      obtain ⟨x, hx⟩ := List.exists_mem_of_ne_nil pd hne
      exact ⟨x, by rw [hdd]; exact List.mem_append_left _ hx, hstd x hx⟩
  · intro fuel now s t' s' h
    rw [acquire, hen] at h
    simp only [Bool.true_eq_false, if_false] at h
    obtain ⟨_, ⟨pm, sm, _, _, hlm, hsm⟩, ⟨pd, sd, _, _, hld, hsd⟩⟩ :=
      acquireGo_some cfg _ _ _ _ _ h
    exact ⟨sm, sd, hsm, hlm, hsd, hld⟩

/-- Witness for C1: a concrete run under the reference configuration, plus a
concrete at-ceiling state (25 timestamps at time 0, call at time 30) where
the admission at time 61 indeed waits for a timestamp to age out. -/
theorem rateLimiter_sliding_window_c1_witness :
    (windowCount MINUTE_WINDOW
        (runAcquiresH referenceConfig [(1, 0), (1, 0), (1, 1)] 0 initialState [] []).1
        (runAcquiresH referenceConfig [(1, 0), (1, 0), (1, 1)] 0 initialState [] []).2.2.1 ≤ 25) ∧
    (∃ x ∈ (cleanupOldRequests 30
        ⟨List.replicate 25 0, List.replicate 25 0⟩).minute_requests, x + MINUTE_WINDOW < 61) := by
  constructor
  · exact ((rateLimiter_sliding_window_c1 referenceConfig rfl).1 [(1, 0), (1, 0), (1, 1)] 0).1
  · exact ((rateLimiter_sliding_window_c1 referenceConfig rfl).2.1 1 30
      ⟨List.replicate 25 0, List.replicate 25 0⟩ 61
      ⟨[61], List.replicate 25 0 ++ [61]⟩ (by decide)).1 (by decide)

/-! ## Transcription service (`transcription_service.py`) -/

/-- Python's whitespace class used by `str.strip` and `str.split`. -/
def isPyWs (c : Char) : Bool :=
  c = ' ' || c = '\t' || c = '\n' || c = '\r' || c = '\x0b' || c = '\x0c'

/-- Python's `str.strip()` over a character list. -/
def stripChars (l : List Char) : List Char :=
  ((l.dropWhile isPyWs).reverse.dropWhile isPyWs).reverse

/-- Python's `str.strip()`. -/
def pyStrip (s : String) : String :=
  String.mk (stripChars s.data)

/-- `self.MAX_FILE_SIZE` (line 74): 24 MB provider payload ceiling. -/
def MAX_FILE_SIZE : Nat := 24 * 1024 * 1024

/-- `str(e)` of the exception raised by `raise last_error` when the loop in
`execute_with_retry` never ran: raising `None` raises a `TypeError` with this
text.  Unreachable whenever `retry_attempts ≥ 1`. -/
def pyErrStr : Option String → String
  | some s => s
  | none => "exceptions must derive from BaseException"

/-- `_do_transcription` inside `_transcribe_single_file` (lines 497-515):
the provider either raises (`.error`) or returns the response text, and an
empty or blank response is turned into a raised `RuntimeError`. -/
def doTranscriptionCall (resp : Except String String) : Except String String :=
  match resp with
  | .error e => .error e
  | .ok s => if s = "" ∨ pyStrip s = "" then .error "Empty transcription received" else .ok s

/-- `_transcribe_single_file` (lines 483-523).  `responses` gives the raw
provider behaviour on each retry attempt; `compressedSize` is the size after
`_compress_audio_aggressive` and `tooLargeMsg` the message of the
still-too-large failure (its float formatting is kept abstract).  Any
exception is re-raised as `RuntimeError("Transcription failed: " + str(e))`. -/
def transcribeSingleFile (cfg : RateLimitConfig) (fileSize compressedSize : Nat)
    (tooLargeMsg : String) (responses : Nat → Except String String) : Except String String :=
  if MAX_FILE_SIZE < fileSize ∧ MAX_FILE_SIZE < compressedSize then
    .error ("Transcription failed: " ++ tooLargeMsg)
  else
    match (executeWithRetry cfg (fun k => doTranscriptionCall (responses k))).outcome with
    | .ok t => .ok t
    | .error e => .error ("Transcription failed: " ++ pyErrStr e)

/-- The per-chunk loop of `_transcribe_with_groq_chunked` (lines 453-471),
over the outcomes of `_transcribe_single_file` on the chunks in order, with
1-based segment numbering: a non-blank success is kept with its segment
marker, a blank success is skipped, and a failure becomes the
`[Transcription failed: ...]` placeholder. -/
def segmentLines : Nat → List (Except String String) → List String
  | _, [] => []
  | i, .ok t :: rest =>
    if pyStrip t ≠ "" then
      ("[Segment " ++ toString i ++ "] " ++ t) :: segmentLines (i + 1) rest
    else
      segmentLines (i + 1) rest
  | i, .error e :: rest =>
    ("[Segment " ++ toString i ++ "] [Transcription failed: " ++ e ++ "]") ::
      segmentLines (i + 1) rest

/-- The outer `except` handler of `_transcribe_with_groq_chunked` (lines
479-481) around a propagated `_transcribe_single_file` outcome: success
passes through, an exception is re-raised as
`RuntimeError("Transcription failed: " + str(e))`. -/
def wrapTranscribeError (r : Except String String) : Except String String :=
  match r with
  | .ok t => .ok t
  | .error e => .error ("Transcription failed: " ++ e)

/-- `_transcribe_with_groq_chunked` (lines 436-481): a file within the
payload ceiling goes directly to `_transcribe_single_file` (whose error the
outer handler wraps once more); a single-chunk split likewise; otherwise the
per-chunk results are joined with blank lines. -/
def transcribeWithGroqChunked (fileSize : Nat) (chunkResults : List (Except String String))
    (singleResult : Except String String) : Except String String :=
  if fileSize ≤ MAX_FILE_SIZE then
    wrapTranscribeError singleResult
  else
    match chunkResults with
    | [r] => wrapTranscribeError r
    | rs => .ok (String.intercalate "\n\n" (segmentLines 1 rs))

/-- A chunk outcome the loop records a line for with certainty: a failure, or
a success whose text is not blank. -/
def chunkUsable : Except String String → Bool
  | .error _ => true
  | .ok t => decide (pyStrip t ≠ "")

/-- Per-segment line demanded by the specification's reassembly sentence
(spec §4.3 steps 3-4), stated from the spec's words for comparison. -/
def expectedSegmentLine (i : Nat) (r : Except String String) : String :=
  match r with
  | .ok t => "[Segment " ++ toString i ++ "] " ++ t
  | .error e => "[Segment " ++ toString i ++ "] [Transcription failed: " ++ e ++ "]"

/-- The ordered, blank-line-separated reassembled transcript demanded by the
specification. -/
def expectedTranscript (rs : List (Except String String)) : String :=
  String.intercalate "\n\n" ((List.enumFrom 1 rs).map (fun p => expectedSegmentLine p.1 p.2))

lemma segmentLines_eq_expected :
    ∀ (rs : List (Except String String)) (n : Nat), (∀ r ∈ rs, chunkUsable r = true) →
      segmentLines n rs = (List.enumFrom n rs).map (fun p => expectedSegmentLine p.1 p.2) := by
  intro rs
  induction rs with
  | nil => intro n _; rfl
  | cons r rest ih =>
    intro n h
    have hrest : ∀ x ∈ rest, chunkUsable x = true :=
      fun x hx => h x (List.mem_cons_of_mem _ hx)
    rcases r with e | t
    · rw [segmentLines, List.enumFrom, List.map_cons, ih (n + 1) hrest]
      rfl
    · have hnb : pyStrip t ≠ "" := by
        have := h (.ok t) (List.mem_cons_self _ _)
        rw [chunkUsable] at this
        exact of_decide_eq_true this
      rw [segmentLines, if_pos hnb, List.enumFrom, List.map_cons, ih (n + 1) hrest]
      rfl

/-- Claim C3 (amended: the placeholder spells `[Transcription failed: ...]`
with a capital T, and successful segments are assumed non-blank since a blank
success is dropped by the loop): when an oversized file is split into at
least two chunks and every chunk either fails or succeeds with non-blank
text, the chunked transcription returns normally with the per-segment
results joined in ordinal order, each behind its segment marker, separated
by blank lines, failed segments replaced by their placeholder. -/
theorem chunked_failed_segment_c3 (fileSize : Nat) (rs : List (Except String String))
    (singleResult : Except String String) (i : Nat) (reason : String)
    (hbig : MAX_FILE_SIZE < fileSize) (hlen : 2 ≤ rs.length)
    (hfail : rs.get? i = some (.error reason))
    (hall : ∀ r ∈ rs, chunkUsable r = true) :
    transcribeWithGroqChunked fileSize rs singleResult = .ok (expectedTranscript rs) := by
  rcases rs with _ | ⟨a, rest⟩
  · simp at hlen
  · rcases rest with _ | ⟨b, rest2⟩
    · simp at hlen
    · have hred : transcribeWithGroqChunked fileSize (a :: b :: rest2) singleResult =
          .ok (String.intercalate "\n\n" (segmentLines 1 (a :: b :: rest2))) := by
        unfold transcribeWithGroqChunked
        rw [if_neg (by omega)]
      rw [hred, expectedTranscript, segmentLines_eq_expected (a :: b :: rest2) 1 hall]

/-- The claim's lowercase placeholder `[transcription failed: ...]` is not
what the code produces: with chunk 1 failing with reason `boom` and chunk 2
succeeding, the transcript carries a capital-T `[Transcription failed: boom]`
and differs from the claimed form. -/
theorem chunked_failed_segment_c3_counterexample :
    transcribeWithGroqChunked (MAX_FILE_SIZE + 1) [.error "boom", .ok "hello world"] (.ok "x") =
      .ok "[Segment 1] [Transcription failed: boom]\n\n[Segment 2] hello world" ∧
    "[Segment 1] [Transcription failed: boom]\n\n[Segment 2] hello world" ≠
      "[Segment 1] [transcription failed: boom]\n\n[Segment 2] hello world" := by
  exact ⟨rfl, by decide⟩

/-- Witness for C3 at three chunks with the middle one failing. -/
theorem chunked_failed_segment_c3_witness :
    transcribeWithGroqChunked (MAX_FILE_SIZE + 1)
        [.ok "alpha", .error "boom", .ok "gamma"] (.ok "x") =
      .ok (expectedTranscript [.ok "alpha", .error "boom", .ok "gamma"]) := by
  exact chunked_failed_segment_c3 (MAX_FILE_SIZE + 1)
    [.ok "alpha", .error "boom", .ok "gamma"] (.ok "x") 1 "boom"
    (by omega) (by decide) (by decide) (by decide)

/-- Claim C4 (amended: the equality holds on successful provider calls; on a
failing call both functions fail, but the chunked entry point wraps the
single-file function's `Transcription failed: ...` message once more): a file
within the 24 MB ceiling is never split — the chunked entry point returns the
single-file result on success, and on failure re-wraps its error. -/
theorem chunked_small_file_c4 (cfg : RateLimitConfig) (fileSize compressedSize : Nat)
    (tooLargeMsg : String) (chunkResults : List (Except String String))
    (responses : Nat → Except String String) (hsmall : fileSize ≤ MAX_FILE_SIZE) :
    (∀ t, (executeWithRetry cfg (fun k => doTranscriptionCall (responses k))).outcome = .ok t →
      transcribeWithGroqChunked fileSize chunkResults
          (transcribeSingleFile cfg fileSize compressedSize tooLargeMsg responses) = .ok t ∧
      transcribeSingleFile cfg fileSize compressedSize tooLargeMsg responses = .ok t) ∧
    (∀ e, (executeWithRetry cfg (fun k => doTranscriptionCall (responses k))).outcome = .error e →
      transcribeSingleFile cfg fileSize compressedSize tooLargeMsg responses =
        .error ("Transcription failed: " ++ pyErrStr e) ∧
      transcribeWithGroqChunked fileSize chunkResults
          (transcribeSingleFile cfg fileSize compressedSize tooLargeMsg responses) =
        .error ("Transcription failed: " ++ ("Transcription failed: " ++ pyErrStr e))) := by
  have hguard : ¬(MAX_FILE_SIZE < fileSize ∧ MAX_FILE_SIZE < compressedSize) :=
    fun hc => absurd hc.1 (by omega)
  constructor
  · intro t ht
    have hsingle : transcribeSingleFile cfg fileSize compressedSize tooLargeMsg responses =
        .ok t := by
      rw [transcribeSingleFile, if_neg hguard, ht]
    refine ⟨?_, hsingle⟩
    unfold transcribeWithGroqChunked
    rw [if_pos hsmall, hsingle]
    rfl
  · intro e he
    have hsingle : transcribeSingleFile cfg fileSize compressedSize tooLargeMsg responses =
        .error ("Transcription failed: " ++ pyErrStr e) := by
      rw [transcribeSingleFile, if_neg hguard, he]
    refine ⟨hsingle, ?_⟩
    unfold transcribeWithGroqChunked
    rw [if_pos hsmall, hsingle]
    rfl

/-- The claim's function equality fails on a failing provider call: the
chunked entry point re-wraps the single-file error message, so the two
results differ at this concrete input. -/
theorem chunked_small_file_c4_counterexample :
    transcribeWithGroqChunked 1000 []
        (transcribeSingleFile referenceConfig 1000 0 "m" (fun _ => .error "boom")) ≠
      transcribeSingleFile referenceConfig 1000 0 "m" (fun _ => .error "boom") := by
  decide

/-- Witness for C4 on a successful provider call: both functions agree. -/
theorem chunked_small_file_c4_witness :
    transcribeWithGroqChunked 1000 []
        (transcribeSingleFile referenceConfig 1000 0 "m" (fun _ => .ok "hi")) = .ok "hi" ∧
    transcribeSingleFile referenceConfig 1000 0 "m" (fun _ => .ok "hi") = .ok "hi" :=
  (chunked_small_file_c4 referenceConfig 1000 0 "m" [] (fun _ => .ok "hi")
    (by decide)).1 "hi" (by decide)

/-! ## Job orchestration (`process_file_transcription`, lines 1041-1119, and
`process_complete_realtime_recording`, lines 1428-1529) -/

/-- The fields of the `Transcription` ORM record touched by the two job
orchestrators.  `completed_at_set` models whether `completed_at` was
assigned. -/
structure Job where
  status : String
  title : String
  transcription_text : Option String
  summary_text : Option String
  error_message : Option String
  duration_seconds : Option Nat
  processing_time_seconds : Option Nat
  generate_summary : Bool
  add_to_knowledge_base : Bool
  completed_at_set : Bool
deriving DecidableEq, Repr

/-- Line 1055: `transcription.status = "processing"`. -/
def jobProcessing (job0 : Job) : Job :=
  { job0 with status := "processing" }

/-- Line 1063: record the probed duration. -/
def jobWithDuration (j : Job) (d : Nat) : Job :=
  { j with duration_seconds := some d }

/-- Line 1067: record the transcript text. -/
def jobWithText (j : Job) (text : String) : Job :=
  { j with transcription_text := some text }

/-- Lines 1070-1076: generate a title when the current one is empty or
blank.  `_generate_smart_title` never raises (it falls back internally), so
the generated title is a plain value. -/
def jobWithTitle (j : Job) (ttl : String) : Job :=
  if pyStrip j.title = "" then { j with title := ttl } else j

/-- Lines 1079-1081: generate a summary when requested and the transcript is
non-empty.  `_generate_summary` never raises (it returns a failure string),
so it is a plain value. -/
def jobWithSummary (j : Job) (text summary : String) : Job :=
  if j.generate_summary ∧ text ≠ "" then { j with summary_text := some summary } else j

/-- Lines 1104-1107: processing time, completed status, completion stamp. -/
def jobCompleted (j : Job) (pt : Nat) : Job :=
  { j with processing_time_seconds := some pt, status := "completed", completed_at_set := true }

/-- Stage outcomes feeding one `process_file_transcription` run.  The stages
that can raise are `_extract_audio_if_needed`, `_get_audio_duration`,
`_transcribe_with_groq_chunked` and the `os.remove` cleanup; title and
summary generation and `_store_in_knowledge_base` swallow their own errors
(the latter also leaves the record unchanged). -/
structure FileStages where
  extract_audio : Except String Unit
  audio_duration : Except String Nat
  transcribe : Except String String
  smart_title : String
  summary : String
  cleanup : Except String Unit
  processing_time : Nat

/-- The `try` body of `process_file_transcription` (lines 1050-1112): on the
first raising stage, return the error text together with the record as
mutated so far. -/
def runFileStages (st : FileStages) (job0 : Job) : Except (String × Job) Job :=
  match st.extract_audio with
  | .error e => .error (e, jobProcessing job0)
  | .ok _ =>
  match st.audio_duration with
  | .error e => .error (e, jobProcessing job0)
  | .ok d =>
  match st.transcribe with
  | .error e => .error (e, jobWithDuration (jobProcessing job0) d)
  | .ok text =>
  match st.cleanup with
  | .error e =>
    .error (e, jobWithSummary (jobWithTitle (jobWithText (jobWithDuration (jobProcessing job0) d)
      text) st.smart_title) text st.summary)
  | .ok _ =>
    .ok (jobCompleted (jobWithSummary (jobWithTitle (jobWithText
      (jobWithDuration (jobProcessing job0) d) text) st.smart_title) text st.summary)
      st.processing_time)

/-- `process_file_transcription` (lines 1041-1119): the `except` handler
(lines 1114-1119) sets `status = "failed"`, records `str(e)` verbatim in
`error_message`, commits, and re-raises (the boolean marks the re-raise). -/
def processFileTranscription (st : FileStages) (job0 : Job) : Job × Bool :=
  match runFileStages st job0 with
  | .ok j => (j, false)
  | .error (e, j) => ({ j with status := "failed", error_message := some e }, true)

lemma runFileStages_text (st : FileStages) (job0 : Job) (e : String) (j : Job)
    (h : runFileStages st job0 = .error (e, j)) :
    j.transcription_text = job0.transcription_text ∨
      ∃ t, st.transcribe = .ok t ∧ j.transcription_text = some t := by
  rcases hA : st.extract_audio with eA | uA
  · simp only [runFileStages, hA, Except.error.injEq, Prod.mk.injEq] at h
    obtain ⟨-, rfl⟩ := h
    exact Or.inl rfl
  · rcases hB : st.audio_duration with eB | d
    · simp only [runFileStages, hA, hB, Except.error.injEq, Prod.mk.injEq] at h
      obtain ⟨-, rfl⟩ := h
      exact Or.inl rfl
    · rcases hC : st.transcribe with eC | text
      · simp only [runFileStages, hA, hB, hC, Except.error.injEq, Prod.mk.injEq] at h
        obtain ⟨-, rfl⟩ := h
        exact Or.inl rfl
      · rcases hD : st.cleanup with eD | uD
        · simp only [runFileStages, hA, hB, hC, hD, Except.error.injEq, Prod.mk.injEq] at h
          obtain ⟨-, rfl⟩ := h
          refine Or.inr ⟨text, rfl, ?_⟩
          rw [jobWithSummary, jobWithTitle]
          split
          · split <;> rfl
          · split <;> rfl
        · simp only [runFileStages, hA, hB, hC, hD] at h
          exact Except.noConfusion h

/-- Claim C5: whatever stage of `process_file_transcription` raises, the job
ends with status `failed`, the raised message recorded verbatim in
`error_message`, the exception re-raised, and any transcript text assigned
before the failure preserved (either the job's prior text, or the freshly
transcribed text when transcription had already succeeded). -/
theorem processFile_failure_c5 (st : FileStages) (job0 : Job) (e : String) (j : Job)
    (h : runFileStages st job0 = .error (e, j)) :
    (processFileTranscription st job0).1.status = "failed" ∧
    (processFileTranscription st job0).1.error_message = some e ∧
    (processFileTranscription st job0).2 = true ∧
    ((processFileTranscription st job0).1.transcription_text = job0.transcription_text ∨
      ∃ t, st.transcribe = .ok t ∧
        (processFileTranscription st job0).1.transcription_text = some t) := by
  have htext := runFileStages_text st job0 e j h
  unfold processFileTranscription
  rw [h]
  exact ⟨rfl, rfl, rfl, htext⟩

/-- Witness for C5: cleanup (`os.remove`) fails after the transcript was
assigned; the job is failed with the message verbatim and the transcript
kept. -/
theorem processFile_failure_c5_witness :
    (processFileTranscription
        ⟨.ok (), .ok 120, .ok "words here", "T", "S", .error "remove failed", 5⟩
        ⟨"pending", "", none, none, none, none, none, true, false, false⟩).1.status = "failed" ∧
    (processFileTranscription
        ⟨.ok (), .ok 120, .ok "words here", "T", "S", .error "remove failed", 5⟩
        ⟨"pending", "", none, none, none, none, none, true, false, false⟩).1.error_message =
      some "remove failed" ∧
    (processFileTranscription
        ⟨.ok (), .ok 120, .ok "words here", "T", "S", .error "remove failed", 5⟩
        ⟨"pending", "", none, none, none, none, none, true, false, false⟩).2 = true ∧
    ((processFileTranscription
        ⟨.ok (), .ok 120, .ok "words here", "T", "S", .error "remove failed", 5⟩
        ⟨"pending", "", none, none, none, none, none, true, false, false⟩).1.transcription_text =
      (⟨"pending", "", none, none, none, none, none, true, false, false⟩ : Job).transcription_text ∨
      ∃ t, (⟨.ok (), .ok 120, .ok "words here", "T", "S", .error "remove failed", 5⟩ :
          FileStages).transcribe = .ok t ∧
        (processFileTranscription
          ⟨.ok (), .ok 120, .ok "words here", "T", "S", .error "remove failed", 5⟩
          ⟨"pending", "", none, none, none, none, none, true, false, false⟩).1.transcription_text =
          some t) :=
  processFile_failure_c5
    ⟨.ok (), .ok 120, .ok "words here", "T", "S", .error "remove failed", 5⟩
    ⟨"pending", "", none, none, none, none, none, true, false, false⟩
    "remove failed"
    ⟨"processing", "T", some "words here", some "S", none, some 120, none, true, false, false⟩
    (by decide)

/-! ## Whole-recording transcription (`_transcribe_with_groq`, lines 669-717)
and `process_complete_realtime_recording` (lines 1428-1529) -/

/-- `_do_transcription` inside `_transcribe_with_groq` (lines 691-710): the
provider either raises or returns text, which is stripped; an empty result is
merely logged, not raised. -/
def doTranslationCall (resp : Except String String) : Except String String :=
  match resp with
  | .error e => .error e
  | .ok s => .ok (pyStrip s)

/-- `_transcribe_with_groq` (lines 669-717): too-large files raise inside the
`try` and the outer handler returns `""`; tiny files return `""` directly;
otherwise the rate-limited provider call's result is returned, with any
exception (including exhausted retries) swallowed into `""`.  The function is
total: it never propagates an error. -/
def transcribeWithGroq (cfg : RateLimitConfig) (fileSize : Nat)
    (responses : Nat → Except String String) : String :=
  if MAX_FILE_SIZE < fileSize then ""
  else if fileSize < 1024 then ""
  else
    match (executeWithRetry cfg (fun k => doTranslationCall (responses k))).outcome with
    | .ok t => t
    | .error _ => ""

lemma executeWithRetryGo_error (cfg : RateLimitConfig) (op : Nat → Except String α)
    (hop : ∀ k, ∃ e, op k = .error e) :
    ∀ (remaining attempt inv : Nat) (sleeps : List Nat) (lastErr : Option String),
      ∃ e2, (executeWithRetryGo cfg op remaining attempt inv sleeps lastErr).outcome =
        .error e2 := by
  intro remaining
  induction remaining with
  | zero => intro attempt inv sleeps lastErr; exact ⟨lastErr, rfl⟩
  | succ r ih =>
    intro attempt inv sleeps lastErr
    obtain ⟨e, he⟩ := hop attempt
    by_cases hrl : isRateLimitError e
    · simp only [executeWithRetryGo, he]
      rw [if_pos hrl]
      exact ih (attempt + 1) (inv + 1) (sleeps ++ [cfg.retry_delay * (attempt + 1)]) (some e)
    · simp only [executeWithRetryGo, he]
      rw [if_neg hrl]
      exact ⟨some e, rfl⟩

lemma transcribeWithGroq_fail (cfg : RateLimitConfig) (fileSize : Nat)
    (responses : Nat → Except String String) (hfail : ∀ k, ∃ e, responses k = .error e) :
    transcribeWithGroq cfg fileSize responses = "" := by
  unfold transcribeWithGroq
  split
  · rfl
  · split
    · rfl
    · have hop : ∀ k, ∃ e, doTranslationCall (responses k) = .error e := by
        intro k
        obtain ⟨e, he⟩ := hfail k
        exact ⟨e, by rw [he]; rfl⟩
      obtain ⟨e2, he2⟩ := executeWithRetryGo_error cfg (fun k => doTranslationCall (responses k))
        hop cfg.retry_attempts 0 0 [] none
      rw [executeWithRetry, he2]

/-- Lines 1456-1457: record the transcript text and processing time. -/
def rtWithText (j : Job) (text : String) (pt : Nat) : Job :=
  { j with transcription_text := some text, processing_time_seconds := some pt }

/-- Lines 1460-1465: regenerate the title when empty, blank or the default
`"Real-time Recording"`; `_generate_smart_title` never raises. -/
def rtWithTitle (j : Job) (ttl : String) : Job :=
  if pyStrip j.title = "" ∨ j.title = "Real-time Recording" then { j with title := ttl } else j

/-- Lines 1467-1474: summary generation, guarded by the flag and a non-empty
transcript, its own failures swallowed by the inner `try`. -/
def rtWithSummary (j : Job) (text : String) (sm : Except String String) : Job :=
  if j.generate_summary ∧ text ≠ "" then
    match sm with
    | .ok s2 => { j with summary_text := some s2 }
    | .error _ => j
  else j

/-- Lines 1494-1496: completed status and completion stamp (the knowledge
base store of lines 1476-1492 swallows failures and changes no field). -/
def rtJobCompleted (j : Job) : Job :=
  { j with status := "completed", completed_at_set := true }

/-- Stage outcomes of one `process_complete_realtime_recording` run other
than the provider calls (those are `responses`). -/
structure RealtimeStages where
  convert : Except String Unit
  audio_duration : Except String Nat
  smart_title : String
  summary : Except String String
  kb_store : Except String Unit
  cleanup : Except String Unit
  processing_time : Nat

/-- The record state after the whole lines 1444-1503 pipeline succeeded up to
the temp-file cleanup. -/
def rtCompleted (cfg : RateLimitConfig) (st : RealtimeStages) (fileSize : Nat)
    (responses : Nat → Except String String) (job0 : Job) (d : Nat) : Job :=
  rtJobCompleted (rtWithSummary (rtWithTitle (rtWithText (jobWithDuration job0 d)
    (transcribeWithGroq cfg fileSize responses) st.processing_time) st.smart_title)
    (transcribeWithGroq cfg fileSize responses) st.summary)

/-- The `try` body of `process_complete_realtime_recording` (lines
1437-1522): conversion and duration probing may raise; the transcription
itself is total; the final `os.remove` cleanup (lines 1505-1508) may raise
after the record was already marked completed. -/
def runRealtimeStages (cfg : RateLimitConfig) (st : RealtimeStages) (fileSize : Nat)
    (responses : Nat → Except String String) (job0 : Job) : Except (String × Job) Job :=
  match st.convert with
  | .error e => .error (e, job0)
  | .ok _ =>
  match st.audio_duration with
  | .error e => .error (e, job0)
  | .ok d =>
  match st.cleanup with
  | .error e => .error (e, rtCompleted cfg st fileSize responses job0 d)
  | .ok _ => .ok (rtCompleted cfg st fileSize responses job0 d)

/-- `process_complete_realtime_recording` (lines 1428-1529): the `except`
handler (lines 1524-1529) fails the job, records the message verbatim and
re-raises `RuntimeError("Processing failed: " + str(e))` (the second
component carries that re-raised message). -/
def processCompleteRealtimeRecording (cfg : RateLimitConfig) (st : RealtimeStages)
    (fileSize : Nat) (responses : Nat → Except String String) (job0 : Job) :
    Job × Option String :=
  match runRealtimeStages cfg st fileSize responses job0 with
  | .ok j => (j, none)
  | .error (e, j) =>
    ({ j with status := "failed", error_message := some e }, some ("Processing failed: " ++ e))

lemma rtWithTitle_text (j : Job) (ttl : String) :
    (rtWithTitle j ttl).transcription_text = j.transcription_text := by
  unfold rtWithTitle
  split <;> rfl

lemma rtWithSummary_text (j : Job) (text : String) (sm : Except String String) :
    (rtWithSummary j text sm).transcription_text = j.transcription_text := by
  unfold rtWithSummary
  split
  · split <;> rfl
  · rfl

lemma rtCompleted_text (cfg : RateLimitConfig) (st : RealtimeStages) (fileSize : Nat)
    (responses : Nat → Except String String) (job0 : Job) (d : Nat) :
    (rtCompleted cfg st fileSize responses job0 d).transcription_text =
      some (transcribeWithGroq cfg fileSize responses) := by
  unfold rtCompleted rtJobCompleted
  rw [show ∀ j : Job, ({ j with status := "completed", completed_at_set := true } :
    Job).transcription_text = j.transcription_text from fun _ => rfl]
  rw [rtWithSummary_text, rtWithTitle_text]
  rfl

/-- Claim C9: `_transcribe_with_groq` is total and returns `""` whenever
every provider attempt fails, and a complete-recording run whose
transcription entirely failed (with conversion, duration probing and cleanup
succeeding) still ends `completed` with an empty transcript and no raised
error, rather than `failed`. -/
theorem transcribeWithGroq_total_c9 (cfg : RateLimitConfig) (st : RealtimeStages)
    (fileSize : Nat) (responses : Nat → Except String String) (job0 : Job) (d : Nat)
    (hfail : ∀ k, ∃ e, responses k = .error e)
    (hconv : st.convert = .ok ()) (hdur : st.audio_duration = .ok d)
    (hclean : st.cleanup = .ok ()) :
    transcribeWithGroq cfg fileSize responses = "" ∧
    (processCompleteRealtimeRecording cfg st fileSize responses job0).1.status = "completed" ∧
    (processCompleteRealtimeRecording cfg st fileSize responses job0).1.transcription_text =
      some "" ∧
    (processCompleteRealtimeRecording cfg st fileSize responses job0).2 = none := by
  have hempty := transcribeWithGroq_fail cfg fileSize responses hfail
  have hrun : runRealtimeStages cfg st fileSize responses job0 =
      .ok (rtCompleted cfg st fileSize responses job0 d) := by
    unfold runRealtimeStages
    rw [hconv, hdur, hclean]
  unfold processCompleteRealtimeRecording
  rw [hrun]
  refine ⟨hempty, rfl, ?_, rfl⟩
  rw [show ((rtCompleted cfg st fileSize responses job0 d, (none : Option String)) :
    Job × Option String).1 = rtCompleted cfg st fileSize responses job0 d from rfl]
  rw [rtCompleted_text, hempty]

/-- Witness for C9: every provider attempt fails with `boom`; the recording
still completes with an empty transcript. -/
theorem transcribeWithGroq_total_c9_witness :
    transcribeWithGroq referenceConfig 2000 (fun _ => .error "boom") = "" ∧
    (processCompleteRealtimeRecording referenceConfig
        ⟨.ok (), .ok 60, "T", .ok "S", .ok (), .ok (), 3⟩ 2000 (fun _ => .error "boom")
        ⟨"processing", "t", none, none, none, none, none, true, true, false⟩).1.status =
      "completed" ∧
    (processCompleteRealtimeRecording referenceConfig
        ⟨.ok (), .ok 60, "T", .ok "S", .ok (), .ok (), 3⟩ 2000 (fun _ => .error "boom")
        ⟨"processing", "t", none, none, none, none, none, true, true, false⟩).1.transcription_text =
      some "" ∧
    (processCompleteRealtimeRecording referenceConfig
        ⟨.ok (), .ok 60, "T", .ok "S", .ok (), .ok (), 3⟩ 2000 (fun _ => .error "boom")
        ⟨"processing", "t", none, none, none, none, none, true, true, false⟩).2 = none :=
  transcribeWithGroq_total_c9 referenceConfig ⟨.ok (), .ok 60, "T", .ok "S", .ok (), .ok (), 3⟩
    2000 (fun _ => .error "boom")
    ⟨"processing", "t", none, none, none, none, none, true, true, false⟩ 60
    (fun _ => ⟨"boom", rfl⟩) rfl rfl rfl

/-! ## Streaming cleanup (`_clean_streaming_transcription`, lines 1333-1391)
and the `/realtime-stream` endpoint (`routes/realtime.py`, lines 67-181) -/

/-- `re.sub(r'\s+', ' ', s)`: collapse each maximal whitespace run into a
single space.  The flag records whether the previous character was part of a
run already emitted as a space. -/
def collapseWsGo : List Char → Bool → List Char
  | [], _ => []
  | c :: rest, inWs =>
    if isPyWs c then
      if inWs then collapseWsGo rest true
      else ' ' :: collapseWsGo rest true
    else c :: collapseWsGo rest false

/-- Python's `re.sub(r'\s+', ' ', s)`. -/
def collapseWs (l : List Char) : List Char :=
  collapseWsGo l false

/-- Python's no-argument `str.split()`: split on whitespace runs, dropping
empty pieces.  `acc` holds the current word reversed. -/
def pySplitGo : List Char → List Char → List (List Char)
  | [], acc => if acc.isEmpty then [] else [acc.reverse]
  | c :: rest, acc =>
    if isPyWs c then
      if acc.isEmpty then pySplitGo rest []
      else acc.reverse :: pySplitGo rest []
    else pySplitGo rest (c :: acc)

/-- Python's `str.split()` over a character list. -/
def pySplit (l : List Char) : List (List Char) :=
  pySplitGo l []

/-- The word-repetition filter of `_clean_streaming_transcription` (lines
1372-1389): a word equal (case-insensitively) to the previous distinct word
is kept once more and then dropped; `prev` is only updated on a change. -/
def collapseRepeatsGo : List (List Char) → List Char → Nat → List (List Char)
  | [], _, _ => []
  | w :: rest, prev, rc =>
    if w.map Char.toLower = prev.map Char.toLower then
      if rc + 1 < 2 then w :: collapseRepeatsGo rest prev (rc + 1)
      else collapseRepeatsGo rest prev (rc + 1)
    else w :: collapseRepeatsGo rest w 0

/-- The word-repetition filter, started with empty previous word and zero
repeat count. -/
def collapseRepeats (ws : List (List Char)) : List (List Char) :=
  collapseRepeatsGo ws [] 0

/-- Python's `s[-n:]`: the last `n` characters. -/
def lastChars (n : Nat) (l : List Char) : List Char :=
  l.drop (l.length - n)

/-- The `false_positives` list (lines 1356-1359). -/
def falsePositives : List String :=
  ["thank you", "thanks", "bye", "hello", "hi", "um", "uh", "ah",
   "you know", "like", "so", "well", "yeah", "yes", "no", "okay"]

/-- `_clean_streaming_transcription` (lines 1333-1391): strip and collapse
whitespace; drop results shorter than 3 characters or equal to a filler
phrase; drop results already present (case-insensitively) in the last 50
characters of the accumulated context when that context is longer than 10
characters; finally collapse immediate word repetition when there are more
than two words. -/
def cleanStreamingTranscription (transcription context : String) : String :=
  if transcription = "" then ""
  else
    let cleaned := collapseWs (stripChars transcription.data)
    if cleaned.length < 3 then ""
    else if falsePositives.any (fun fp => stripChars (cleaned.map Char.toLower) = fp.data) then ""
    else if 10 < context.data.length ∧
        containsSub (lastChars 50 (context.data.map Char.toLower))
          (cleaned.map Char.toLower) = true then ""
    else
      let words := pySplit cleaned
      if 2 < words.length then String.mk (List.intercalate [' '] (collapseRepeats words))
      else String.mk cleaned

/-- The cleaned text computed by `_clean_streaming_transcription` before its
context-repetition check, for a raw provider response `raw` (the route passes
`response.strip()` in, and the function strips again). -/
def streamCleaned (raw : String) : List Char :=
  collapseWs (stripChars (pyStrip raw).data)

/-- One user's entry of `transcription_contexts` (lines 87-94). -/
structure StreamingContext where
  session_start : Nat
  accumulated_text : String
  last_final_text : String
  chunk_count : Nat
  last_update : Nat
deriving DecidableEq, Repr

/-- The JSON payload returned by the `/realtime-stream` endpoint. -/
structure StreamResponse where
  text : String
  is_final : Bool
  status : String
  message : Option String
deriving DecidableEq, Repr

/-- Context created on a user's first fragment (lines 87-94). -/
def initContext (now : Nat) : StreamingContext :=
  ⟨now, "", "", 0, now⟩

/-- `clean_transcription.endswith(('.', '!', '?'))`. -/
def endsWithTerminal (l : List Char) : Bool :=
  match l.getLast? with
  | some c => c = '.' || c = '!' || c = '?'
  | none => false

/-- One `/realtime-stream` request for an existing session (lines 96-165).
The counter and activity timestamp are updated before the 2 KB size check;
small fragments return without a provider call (last component `false`).
Otherwise `raw` is the provider's response text; the result is cleaned, the
finality heuristic may merge it into the accumulated transcript, and the
route-level repetition check picks the returned payload. -/
def realtimeStreamStep (ctx0 : StreamingContext) (fragmentSize : Nat) (raw : String)
    (now : Nat) : StreamingContext × StreamResponse × Bool :=
  let ctx : StreamingContext :=
    { ctx0 with chunk_count := ctx0.chunk_count + 1, last_update := now }
  if fragmentSize < 2048 then
    (ctx, ⟨"", false, "success", some "Chunk too small"⟩, false)
  else
    let transcription := cleanStreamingTranscription (pyStrip raw) ctx.accumulated_text
    let clean := pyStrip transcription
    if clean = "" then
      (ctx, ⟨clean, false, "success", none⟩, true)
    else
      let isFin : Bool := endsWithTerminal clean.data &&
        decide (3 < (pySplit clean.data).length) && decide (ctx.chunk_count % 4 = 0)
      let merged := ctx.accumulated_text ++ " " ++ clean
      let ctxF : StreamingContext :=
        if isFin then { ctx with last_final_text := merged, accumulated_text := merged } else ctx
      if containsSub (ctxF.accumulated_text.data.map Char.toLower)
          (clean.data.map Char.toLower) = false then
        (ctxF, ⟨clean, isFin, "success", none⟩, true)
      else
        (ctxF, ⟨"", false, "success", some "Filtered repetitive content"⟩, true)

/-- A whole session: fold `/realtime-stream` requests
`(fragmentSize, rawText, time)` over the context. -/
def runStream : List (Nat × String × Nat) → StreamingContext → StreamingContext
  | [], ctx => ctx
  | (size, raw, now) :: rest, ctx => runStream rest (realtimeStreamStep ctx size raw now).1

lemma realtimeStreamStep_count (ctx0 : StreamingContext) (size : Nat) (raw : String)
    (now : Nat) : (realtimeStreamStep ctx0 size raw now).1.chunk_count = ctx0.chunk_count + 1 := by
  simp only [realtimeStreamStep]
  split
  · rfl
  · split
    · rfl
    · split
      · split <;> rfl
      · split <;> rfl

lemma realtimeStreamStep_accum (ctx0 : StreamingContext) (size : Nat) (raw : String)
    (now : Nat)
    (hch : (realtimeStreamStep ctx0 size raw now).1.accumulated_text ≠ ctx0.accumulated_text) :
    (ctx0.chunk_count + 1) % 4 = 0 := by
  by_contra hmod
  apply hch
  simp only [realtimeStreamStep]
  split
  · rfl
  · split
    · rfl
    · rw [decide_eq_false hmod]
      simp only [Bool.and_false, Bool.false_eq_true, if_false]
      split <;> rfl

/-- Claim C10: a fragment below 2048 bytes yields empty text, no provider
call, and a session whose counter is incremented and activity timestamp
refreshed — all other fields untouched. -/
theorem small_fragment_frame_c10 (ctx0 : StreamingContext) (fragmentSize : Nat)
    (raw : String) (now : Nat) (hsmall : fragmentSize < 2048) :
    realtimeStreamStep ctx0 fragmentSize raw now =
      ({ ctx0 with chunk_count := ctx0.chunk_count + 1, last_update := now },
       ⟨"", false, "success", some "Chunk too small"⟩, false) := by
  unfold realtimeStreamStep
  rw [if_pos hsmall]

/-- Witness for C10 at a concrete session and a 100-byte fragment. -/
theorem small_fragment_frame_c10_witness :
    realtimeStreamStep ⟨1, "a", "b", 6, 2⟩ 100 "ignored" 99 =
      (⟨1, "a", "b", 7, 99⟩, ⟨"", false, "success", some "Chunk too small"⟩, false) :=
  small_fragment_frame_c10 ⟨1, "a", "b", 6, 2⟩ 100 "ignored" 99 (by decide)

lemma cleanStreaming_suppressed (raw context : String)
    (hlen : 10 < context.data.length)
    (hsub : containsSub (lastChars 50 (context.data.map Char.toLower))
      ((streamCleaned raw).map Char.toLower) = true) :
    cleanStreamingTranscription (pyStrip raw) context = "" := by
  unfold streamCleaned at hsub
  simp only [cleanStreamingTranscription]
  split
  · rfl
  · split
    · rfl
    · split
      · rfl
      · rw [if_pos ⟨hlen, hsub⟩]

lemma realtimeStreamStep_suppressed (ctx0 : StreamingContext) (size : Nat) (raw : String)
    (now : Nat) (hsize : 2048 ≤ size)
    (hlen : 10 < ctx0.accumulated_text.data.length)
    (hsub : containsSub (lastChars 50 (ctx0.accumulated_text.data.map Char.toLower))
      ((streamCleaned raw).map Char.toLower) = true) :
    realtimeStreamStep ctx0 size raw now =
      ({ ctx0 with chunk_count := ctx0.chunk_count + 1, last_update := now },
       ⟨"", false, "success", none⟩, true) := by
  have hclean : cleanStreamingTranscription (pyStrip raw) ctx0.accumulated_text = "" :=
    cleanStreaming_suppressed raw ctx0.accumulated_text hlen hsub
  simp only [realtimeStreamStep]
  rw [if_neg (by omega)]
  rw [show ({ ctx0 with chunk_count := ctx0.chunk_count + 1, last_update := now } :
    StreamingContext).accumulated_text = ctx0.accumulated_text from rfl]
  rw [hclean]
  rfl

/-- Claim C6: (1) across any two consecutive flushes — in particular the same
fragment pushed twice in immediate succession — at most one can change the
accumulated transcript, so the text is never merged twice; (2) a flush whose
cleaned text already occurs case-insensitively in the last 50 characters of
an accumulated transcript longer than 10 characters is suppressed: the
response text is empty and both the accumulated and last-final transcripts
are left unchanged. -/
theorem streaming_dedup_c6 :
    (∀ (ctx0 : StreamingContext) (size : Nat) (raw raw2 : String) (n1 n2 : Nat),
      (realtimeStreamStep ctx0 size raw n1).1.accumulated_text = ctx0.accumulated_text ∨
      (realtimeStreamStep (realtimeStreamStep ctx0 size raw n1).1 size raw2 n2).1.accumulated_text
        = (realtimeStreamStep ctx0 size raw n1).1.accumulated_text) ∧
    (∀ (ctx0 : StreamingContext) (size : Nat) (raw : String) (now : Nat),
      2048 ≤ size →
      10 < ctx0.accumulated_text.data.length →
      containsSub (lastChars 50 (ctx0.accumulated_text.data.map Char.toLower))
        ((streamCleaned raw).map Char.toLower) = true →
      (realtimeStreamStep ctx0 size raw now).2.1.text = "" ∧
      (realtimeStreamStep ctx0 size raw now).1.accumulated_text = ctx0.accumulated_text ∧
      (realtimeStreamStep ctx0 size raw now).1.last_final_text = ctx0.last_final_text) := by
  constructor
  · intro ctx0 size raw raw2 n1 n2
    by_cases h1 : (realtimeStreamStep ctx0 size raw n1).1.accumulated_text =
        ctx0.accumulated_text
    · exact Or.inl h1
    · by_cases h2 : (realtimeStreamStep (realtimeStreamStep ctx0 size raw n1).1 size raw2
          n2).1.accumulated_text = (realtimeStreamStep ctx0 size raw n1).1.accumulated_text
      · exact Or.inr h2
      · exfalso
        have hmod1 := realtimeStreamStep_accum ctx0 size raw n1 h1
        have hmod2 := realtimeStreamStep_accum _ size raw2 n2 h2
        rw [realtimeStreamStep_count ctx0 size raw n1] at hmod2
        omega
  · intro ctx0 size raw now hsize hlen hsub
    rw [realtimeStreamStep_suppressed ctx0 size raw now hsize hlen hsub]
    exact ⟨rfl, rfl, rfl⟩

/-- Witness for C6: the accumulated transcript `hello wonderful world`
already contains the flush's cleaned text `wonderful`, so the flush is
suppressed and changes nothing. -/
theorem streaming_dedup_c6_witness :
    (realtimeStreamStep ⟨0, "hello wonderful world", "", 0, 0⟩ 4096 "wonderful" 5).2.1.text =
      "" ∧
    (realtimeStreamStep ⟨0, "hello wonderful world", "", 0, 0⟩ 4096
        "wonderful" 5).1.accumulated_text = "hello wonderful world" ∧
    (realtimeStreamStep ⟨0, "hello wonderful world", "", 0, 0⟩ 4096
        "wonderful" 5).1.last_final_text = "" :=
  streaming_dedup_c6.2 ⟨0, "hello wonderful world", "", 0, 0⟩ 4096 "wonderful" 5
    (by decide) (by decide) (by decide)

/-- Claim C7 (code bug): at the fourth flush of a fresh session with cleaned
text `This is a complete sentence.`, all three finality conditions hold
(terminal punctuation, more than 3 words, flush count divisible by 4) and
the text is merged into the accumulated transcript — yet the response is
`is_final: false` with empty text, because the route's repetition filter
inspects the accumulated transcript after the merge and always classifies a
just-merged final result as repetitive.  No response of the endpoint ever
carries `is_final: true`. -/
theorem streaming_finality_c7_bug :
    (realtimeStreamStep ⟨0, "", "", 3, 0⟩ 4096 "This is a complete sentence." 1).2.1.is_final =
      false ∧
    (realtimeStreamStep ⟨0, "", "", 3, 0⟩ 4096 "This is a complete sentence." 1).2.1.text = "" ∧
    (realtimeStreamStep ⟨0, "", "", 3, 0⟩ 4096
        "This is a complete sentence." 1).1.accumulated_text =
      " This is a complete sentence." ∧
    endsWithTerminal (pyStrip (cleanStreamingTranscription
      (pyStrip "This is a complete sentence.") "")).data = true ∧
    3 < (pySplit (pyStrip (cleanStreamingTranscription
      (pyStrip "This is a complete sentence.") "")).data).length ∧
    (3 + 1) % 4 = 0 := by
  decide

lemma realtimeStreamStep_last_final (ctx0 : StreamingContext) (size : Nat) (raw : String)
    (now : Nat) (h : ctx0.last_final_text = ctx0.accumulated_text) :
    (realtimeStreamStep ctx0 size raw now).1.last_final_text =
      (realtimeStreamStep ctx0 size raw now).1.accumulated_text := by
  simp only [realtimeStreamStep]
  split
  · exact h
  · split
    · exact h
    · split <;> split <;> first | rfl | exact h

lemma runStream_last_final :
    ∀ (inputs : List (Nat × String × Nat)) (ctx : StreamingContext),
      ctx.last_final_text = ctx.accumulated_text →
      (runStream inputs ctx).last_final_text = (runStream inputs ctx).accumulated_text := by
  intro inputs
  induction inputs with
  | nil => intro ctx h; exact h
  | cons c rest ih =>
    intro ctx h
    obtain ⟨size, raw, now⟩ := c
    rw [runStream]
    exact ih _ (realtimeStreamStep_last_final ctx size raw now h)

/-- Claim C8 (amended: the containment is not strict — in this
implementation the two fields are in fact always equal, the last finalized
transcript being updated to the full accumulated transcript at every merge
and both starting empty): in every session state reachable from a fresh
context by any sequence of fragment pushes, the accumulated transcript is an
append-extension (possibly empty) of the last finalized transcript. -/
theorem streaming_prefix_c8 (inputs : List (Nat × String × Nat)) (now0 : Nat) :
    ∃ s, (runStream inputs (initContext now0)).accumulated_text =
      (runStream inputs (initContext now0)).last_final_text ++ s := by
  refine ⟨"", ?_⟩
  rw [runStream_last_final inputs (initContext now0) rfl]
  simp

/-- The claimed strictness fails at a concrete reachable state: after a
session whose fourth flush merged `This is a complete sentence.`, the
accumulated and last-finalized transcripts are equal, so the accumulated
transcript is not a proper append-extension of the last finalized one. -/
theorem streaming_prefix_c8_counterexample :
    ¬ ∃ s, s ≠ "" ∧
      (runStream [(4096, "aa", 0), (4096, "bb", 0), (4096, "cc", 0),
          (4096, "This is a complete sentence.", 0)] (initContext 0)).accumulated_text =
        (runStream [(4096, "aa", 0), (4096, "bb", 0), (4096, "cc", 0),
          (4096, "This is a complete sentence.", 0)] (initContext 0)).last_final_text ++ s := by
  rintro ⟨s, hs, h⟩
  have heq : (runStream [(4096, "aa", 0), (4096, "bb", 0), (4096, "cc", 0),
      (4096, "This is a complete sentence.", 0)] (initContext 0)).accumulated_text =
      (runStream [(4096, "aa", 0), (4096, "bb", 0), (4096, "cc", 0),
      (4096, "This is a complete sentence.", 0)] (initContext 0)).last_final_text := by
    decide
  rw [heq] at h
  have hlen := congrArg String.length h
  rw [String.length_append] at hlen
  have hzero : s.length = 0 := by omega
  obtain ⟨data⟩ := s
  have hd : data = [] := List.length_eq_zero.mp hzero
  subst hd
  exact hs rfl

end TranscriptionPlatform
